import Mathlib

/-!
# Verification of the VoiceCloningDemo TTS comparison page

Shallow embedding of the core of `App.tsx` (the variant with the conditional
`generatedSpeech` cell, i.e. the `TTSSection` renderer with the
`row.generatedSpeech && <AudioPlayer/>` branch):

* `TTSData` — the row record (`interface TTSData`);
* `AudioPlayerState` / `handlePlayPause` / `endedEvent` — the `AudioPlayer`
  component's state machine: a boolean `isPlaying` flag (React `useState`),
  one exclusively owned `HTMLAudioElement` (`audioRef`), a toggle handler and
  the `onended` listener it installs;
* `renderRow` — the body of `TTSSection`'s `data.map` (one `<TableRow>`);
* `TTSSection` / `ModelSection` — the section and experiment-panel renderers.

Media-platform conventions used by the embedding:

* A JavaScript string is truthy iff it is nonempty, so the conditional
  rendering of the `generatedSpeech` cell tests the reference against `""`.
* `HTMLMediaElement.play()` never throws synchronously: it returns a promise
  that rejects asynchronously when the resource cannot be loaded or played,
  and a rejected play leaves the element not playing.  `pause()` is
  infallible.  The environment fact "this clip reference resolves to a
  playable resource" is the `loadable` field of `AudioResource`; a play
  request on a non-loadable resource simply leaves `playing` false, and no
  exception reaches the caller of the toggle (see `handlePlayPauseE`).
* The element fires its `ended` notification when playback reaches
  end-of-stream; the installed `onended` listener then runs.
-/

namespace VCD

/-- The row record, `interface TTSData` in `App.tsx`.  All six fields are
strings; an absent optional clip is the empty (falsy) string. -/
structure TTSData where
  speakerId : String
  originalText : String
  originalSpeech : String
  generatedSpeech : String
  generateText : String
  generatedSpeechNew : String
deriving Repr, DecidableEq

/-- JavaScript truthiness of a string: truthy iff nonempty. -/
def jsTruthy (s : String) : Bool := s != ""

/-- The `HTMLAudioElement` owned by one `AudioPlayer` (`audioRef.current`).
`loadable` is the environment's verdict on the clip reference: whether the
resource can actually be loaded and played.  `onendedSet` records whether the
component has installed its `onended` listener. -/
structure AudioResource where
  src : String
  loadable : Bool
  playing : Bool
  onendedSet : Bool
deriving Repr, DecidableEq

/-- `audio.pause()`: always stops playback. -/
def audioPause (a : AudioResource) : AudioResource := { a with playing := false }

/-- `audio.play()`: fire-and-forget play request.  On a loadable resource
playback starts; on a non-loadable one the returned promise rejects
asynchronously and the element stays not-playing.  No synchronous throw. -/
def audioPlay (a : AudioResource) : AudioResource :=
  if a.loadable then { a with playing := true } else a

/-- A media request issued by the control on its resource. -/
inductive MediaRequest where
  | play
  | pause
deriving Repr, DecidableEq

/-- One `AudioPlayer` instance: the `isPlaying` React state, the owned audio
element, and (for specification purposes) the log of media requests the
control has issued on its resource. -/
structure AudioPlayerState where
  isPlaying : Bool
  audio : AudioResource
  requests : List MediaRequest
deriving Repr, DecidableEq

/-- A freshly mounted `AudioPlayer src`: `useState(false)` and
`new Audio(src)`, no requests issued yet. -/
def initAudioPlayer (src : String) (loadable : Bool) : AudioPlayerState :=
  { isPlaying := false
    audio := { src := src, loadable := loadable, playing := false, onendedSet := false }
    requests := [] }

/-- The toggle handler `handlePlayPause`:
if playing, pause the element, else request play; flip `isPlaying`
optimistically; install the `onended` listener. -/
def handlePlayPause (s : AudioPlayerState) : AudioPlayerState :=
  let a := if s.isPlaying then audioPause s.audio else audioPlay s.audio
  { isPlaying := !s.isPlaying
    audio := { a with onendedSet := true }
    requests := s.requests ++ [if s.isPlaying then MediaRequest.pause else MediaRequest.play] }

/-- The element reaches end-of-stream: playback stops, and if the `onended`
listener is installed it runs `setIsPlaying(false)`. -/
def endedEvent (s : AudioPlayerState) : AudioPlayerState :=
  let a := { s.audio with playing := false }
  if s.audio.onendedSet then { s with audio := a, isPlaying := false }
  else { s with audio := a }

/-- The two events one control can receive: a user toggle, or the resource's
end-of-stream notification. -/
inductive AudioEvent where
  | toggle
  | ended
deriving Repr, DecidableEq

/-- Dispatch one event on a control. -/
def audioStep (s : AudioPlayerState) : AudioEvent → AudioPlayerState
  | AudioEvent.toggle => handlePlayPause s
  | AudioEvent.ended => endedEvent s

/-- Run a control from a state through a sequence of events (single-threaded
UI dispatch serialises them). -/
def audioRun (s : AudioPlayerState) (es : List AudioEvent) : AudioPlayerState :=
  es.foldl audioStep s

/-- Fallible-looking variant of `audio.pause()`: it has no failure path. -/
def audioPauseE (a : AudioResource) : Except String AudioResource :=
  Except.ok (audioPause a)

/-- Fallible-looking variant of `audio.play()`: `play()` returns a promise
and never throws synchronously, so the synchronous step always succeeds;
load/play failure only shows up asynchronously (the element stays
not-playing). -/
def audioPlayE (a : AudioResource) : Except String AudioResource :=
  Except.ok (audioPlay a)

/-- The toggle handler with its media calls routed through the fallible
interface, to express that no error can surface to the caller. -/
def handlePlayPauseE (s : AudioPlayerState) : Except String AudioPlayerState := do
  let a ← if s.isPlaying then audioPauseE s.audio else audioPlayE s.audio
  Except.ok
    { isPlaying := !s.isPlaying
      audio := { a with onendedSet := true }
      requests := s.requests ++ [if s.isPlaying then MediaRequest.pause else MediaRequest.play] }

/-- A node inside a rendered table cell: a piece of text or one `AudioPlayer`
instantiation (its clip reference and its label). -/
inductive CellNode where
  | text (s : String)
  | audioControl (src : String) (label : String)
deriving Repr, DecidableEq

/-- The audio controls occurring in a cell, as (clip reference, label)
pairs, in render order. -/
def audioControls (ns : List CellNode) : List (String × String) :=
  ns.filterMap fun n =>
    match n with
    | CellNode.audioControl src label => some (src, label)
    | _ => none

/-- One rendered `<TableRow>` of `TTSSection`: six cells in source order. -/
structure RenderedRow where
  speakerCell : List CellNode
  originalTextCell : List CellNode
  originalSpeechCell : List CellNode
  generatedSpeechCell : List CellNode
  generateTextCell : List CellNode
  generatedSpeechNewCell : List CellNode
deriving Repr, DecidableEq

/-- The body of `TTSSection`'s `data.map`: render one comparison row.
The `generatedSpeech` cell is the one conditional branch
(`row.generatedSpeech && <AudioPlayer .../>`): a falsy (empty) reference
renders an empty cell. -/
def renderRow (row : TTSData) : RenderedRow :=
  { speakerCell := [CellNode.text row.speakerId]
    originalTextCell := [CellNode.text row.originalText]
    originalSpeechCell := [CellNode.audioControl row.originalSpeech "Original"]
    generatedSpeechCell :=
      if jsTruthy row.generatedSpeech then
        [CellNode.audioControl row.generatedSpeech "Generated"]
      else []
    generateTextCell := [CellNode.text row.generateText]
    generatedSpeechNewCell := [CellNode.audioControl row.generatedSpeechNew "New Generated"] }

/-- A rendered section: its heading, the displayed sample count
(`{data.length} samples`), and the rendered rows. -/
structure RenderedSection where
  title : String
  sampleCount : Nat
  rows : List RenderedRow
deriving Repr, DecidableEq

/-- The `TTSSection` component: heading, `data.length` as the count, one
rendered row per record in input order. -/
def TTSSection (title : String) (data : List TTSData) : RenderedSection :=
  { title := title, sampleCount := data.length, rows := data.map renderRow }

/-- A rendered experiment panel: its title and its child sections in
render order. -/
structure RenderedPanel where
  title : String
  sections : List RenderedSection
deriving Repr, DecidableEq

/-- The `ModelSection` component: a card with the experiment title and the
train and test `TTSSection`s, train first. -/
def ModelSection (title : String) (trainData testData : List TTSData) : RenderedPanel :=
  { title := title
    sections :=
      [TTSSection "Train (seen data)" trainData, TTSSection "Test (unseen data)" testData] }

/-- Toggling the control at index `i` of a collection of mounted controls:
only that control's own `handlePlayPause` runs (each `AudioPlayer` owns its
state privately; there is no cross-control coordination in the source). -/
def toggleControl (cs : List AudioPlayerState) (i : Nat) : List AudioPlayerState :=
  match cs[i]? with
  | some c => cs.set i (handlePlayPause c)
  | none => cs

/-- Sample row from the specification's example scenario. -/
def sampleRowFull : TTSData :=
  { speakerId := "s1", originalText := "t1", originalSpeech := "a.wav"
    generatedSpeech := "b.wav", generateText := "t2", generatedSpeechNew := "c.wav" }

/-- The same row with the optional `generatedSpeech` clip absent. -/
def sampleRowNoGen : TTSData :=
  { speakerId := "s1", originalText := "t1", originalSpeech := "a.wav"
    generatedSpeech := "", generateText := "t2", generatedSpeechNew := "c.wav" }

end VCD

namespace VCD

/-- One audio event preserves the invariant that a control showing `Playing`
has its `onended` listener installed (the toggle installs the listener on
every invocation). -/
theorem audioStep_onendedSet (s : AudioPlayerState) (e : AudioEvent)
    (h : s.isPlaying = true → s.audio.onendedSet = true) :
    (audioStep s e).isPlaying = true → (audioStep s e).audio.onendedSet = true := by
  cases e with
  | toggle => intro _; simp [audioStep, handlePlayPause]
  | ended =>
    intro hp
    by_cases hs : s.audio.onendedSet = true
    · simp [audioStep, endedEvent, hs] at hp
    · simp [audioStep, endedEvent, hs] at hp ⊢
      exact hs (h hp)

/-- Along any run of a control, `Playing` implies the `onended` listener is
installed, provided that held initially. -/
theorem audioRun_onendedSet (es : List AudioEvent) (s : AudioPlayerState)
    (h : s.isPlaying = true → s.audio.onendedSet = true) :
    (audioRun s es).isPlaying = true → (audioRun s es).audio.onendedSet = true := by
  induction es generalizing s with
  | nil => exact h
  | cons e es ih => exact ih (audioStep s e) (audioStep_onendedSet s e h)

end VCD

namespace VCD

/-- Claim C1: for a comparison row whose `generatedSpeech` reference is unset
(the falsy empty string), the rendered `generatedSpeech` cell is empty; for a
row with it set, the cell holds exactly one audio control bound to that
reference. -/
theorem generatedSpeech_cell_conditional (r : TTSData) :
    (r.generatedSpeech = "" → (renderRow r).generatedSpeechCell = []) ∧
    (r.generatedSpeech ≠ "" →
      (renderRow r).generatedSpeechCell = [CellNode.audioControl r.generatedSpeech "Generated"]) := by
  constructor
  · intro h; simp [renderRow, jsTruthy, h]
  · intro h; simp [renderRow, jsTruthy, h]

/-- Claim C1 witness: the specification's example row with and without the
optional clip. -/
theorem generatedSpeech_cell_conditional_witness :
    (renderRow sampleRowNoGen).generatedSpeechCell = [] ∧
    (renderRow sampleRowFull).generatedSpeechCell = [CellNode.audioControl "b.wav" "Generated"] :=
  ⟨(generatedSpeech_cell_conditional sampleRowNoGen).1 rfl,
   (generatedSpeech_cell_conditional sampleRowFull).2 (by decide)⟩

/-- Claim C2 counterexample: toggling a control from `Idle` on a resource
that cannot load or play leaves the control in `Playing` (the optimistic
`setIsPlaying(!isPlaying)` is never reverted), contradicting the claim that
the state reverts to or remains `Idle`. -/
theorem failed_play_not_idle_cex :
    ¬ (handlePlayPause (initAudioPlayer "missing.wav" false)).isPlaying = false := by
  simp [handlePlayPause, initAudioPlayer, audioPlay]

/-- Claim C2 (amended): toggling from `Idle` on a failing resource moves the
control to `Playing` and leaves it there, with the resource itself not
playing; the failure still does not propagate past that control (a sibling
control is untouched). -/
theorem failed_play_optimistic (s : AudioPlayerState) (h : s.isPlaying = false)
    (hl : s.audio.loadable = false) (hp : s.audio.playing = false) :
    (handlePlayPause s).isPlaying = true ∧
    (handlePlayPause s).audio.playing = false ∧
    (∀ t : AudioPlayerState, toggleControl [s, t] 0 = [handlePlayPause s, t]) := by
  refine ⟨by simp [handlePlayPause, h], ?_, ?_⟩
  · simp [handlePlayPause, audioPlay, h, hl, hp]
  · intro t; simp [toggleControl]

/-- Claim C2 witness: a fresh control on an unresolvable clip reference. -/
theorem failed_play_optimistic_witness :
    (handlePlayPause (initAudioPlayer "missing.wav" false)).isPlaying = true ∧
    (handlePlayPause (initAudioPlayer "missing.wav" false)).audio.playing = false ∧
    (∀ t : AudioPlayerState,
      toggleControl [initAudioPlayer "missing.wav" false, t] 0 =
        [handlePlayPause (initAudioPlayer "missing.wav" false), t]) :=
  failed_play_optimistic (initAudioPlayer "missing.wav" false) rfl rfl rfl

/-- Claim C3: from `Idle`, one toggle moves the control to `Playing` and
issues a play request on its resource; a second toggle moves it back to
`Idle` and issues a pause request, so the pair returns the state to `Idle`. -/
theorem toggle_symmetry (s : AudioPlayerState) (h : s.isPlaying = false) :
    (handlePlayPause s).isPlaying = true ∧
    (handlePlayPause s).requests = s.requests ++ [MediaRequest.play] ∧
    (handlePlayPause (handlePlayPause s)).isPlaying = false ∧
    (handlePlayPause (handlePlayPause s)).requests =
      s.requests ++ [MediaRequest.play, MediaRequest.pause] := by
  simp [handlePlayPause, h]

/-- Claim C3 witness: a fresh control on a loadable clip. -/
theorem toggle_symmetry_witness :
    (handlePlayPause (initAudioPlayer "a.wav" true)).isPlaying = true ∧
    (handlePlayPause (initAudioPlayer "a.wav" true)).requests = [MediaRequest.play] ∧
    (handlePlayPause (handlePlayPause (initAudioPlayer "a.wav" true))).isPlaying = false ∧
    (handlePlayPause (handlePlayPause (initAudioPlayer "a.wav" true))).requests =
      [MediaRequest.play, MediaRequest.pause] :=
  toggle_symmetry (initAudioPlayer "a.wav" true) rfl

/-- Claim C4: whenever a control reached from mount is in `Playing`, the
resource's end-of-stream notification alone (no user toggle) puts it back in
`Idle` — possible because every toggle installs the `onended` listener before
`Playing` can ever hold. -/
theorem ended_resets_playing (src : String) (loadable : Bool) (es : List AudioEvent)
    (h : (audioRun (initAudioPlayer src loadable) es).isPlaying = true) :
    (endedEvent (audioRun (initAudioPlayer src loadable) es)).isPlaying = false := by
  have hset := audioRun_onendedSet es (initAudioPlayer src loadable)
    (by intro hc; simp [initAudioPlayer] at hc) h
  simp [endedEvent, hset]

/-- Claim C4 witness: a control toggled once is playing, and end-of-stream
resets it. -/
theorem ended_resets_playing_witness :
    (audioRun (initAudioPlayer "a.wav" true) [AudioEvent.toggle]).isPlaying = true ∧
    (endedEvent (audioRun (initAudioPlayer "a.wav" true) [AudioEvent.toggle])).isPlaying = false :=
  ⟨rfl, ended_resets_playing "a.wav" true [AudioEvent.toggle] rfl⟩

/-- Claim C5: toggling the control at one index leaves every other control's
state unchanged — each `AudioPlayer` owns its state privately and the source
has no cross-control coordination. -/
theorem toggle_independence (cs : List AudioPlayerState) (i j : Nat) (h : i ≠ j) :
    (toggleControl cs i)[j]? = cs[j]? := by
  unfold toggleControl
  cases hc : cs[i]? with
  | none => rfl
  | some c => exact List.getElem?_set_ne h

/-- Claim C5 witness: two controls on different clips, toggling the first. -/
theorem toggle_independence_witness :
    (toggleControl [initAudioPlayer "a.wav" true, initAudioPlayer "b.wav" true] 0)[1]? =
      [initAudioPlayer "a.wav" true, initAudioPlayer "b.wav" true][1]? :=
  toggle_independence [initAudioPlayer "a.wav" true, initAudioPlayer "b.wav" true] 0 1
    (by decide)

end VCD

namespace VCD

/-- Claim C6: a section rendered from N rows displays sample count N and
contains exactly N rendered rows, the i-th rendered row coming from the i-th
input row. -/
theorem section_row_fidelity (title : String) (data : List TTSData) :
    (TTSSection title data).sampleCount = data.length ∧
    (TTSSection title data).rows.length = data.length ∧
    ∀ i : Nat, (TTSSection title data).rows[i]? = (data[i]?).map renderRow := by
  refine ⟨rfl, by simp [TTSSection], ?_⟩
  intro i
  simp [TTSSection]

/-- Claim C7: an experiment panel always renders exactly the train section
followed by the test section, for every input (in particular for empty
sequences, where the section shows count 0 and no rows). -/
theorem panel_completeness (t : String) (tr te : List TTSData) :
    (ModelSection t tr te).title = t ∧
    (ModelSection t tr te).sections =
      [TTSSection "Train (seen data)" tr, TTSSection "Test (unseen data)" te] ∧
    (TTSSection "Train (seen data)" ([] : List TTSData)).sampleCount = 0 ∧
    (TTSSection "Train (seen data)" ([] : List TTSData)).rows = [] ∧
    (TTSSection "Test (unseen data)" ([] : List TTSData)).sampleCount = 0 ∧
    (TTSSection "Test (unseen data)" ([] : List TTSData)).rows = [] :=
  ⟨rfl, rfl, rfl, rfl, rfl, rfl⟩

/-- Claim C8: the row renderer is deterministic — its output is a function of
the six row fields alone, so rendering equal rows (in particular the same row
twice) yields the same rendered structure; as a pure function it cannot
mutate its input. -/
theorem render_deterministic (r r' : TTSData)
    (h1 : r.speakerId = r'.speakerId) (h2 : r.originalText = r'.originalText)
    (h3 : r.originalSpeech = r'.originalSpeech) (h4 : r.generatedSpeech = r'.generatedSpeech)
    (h5 : r.generateText = r'.generateText) (h6 : r.generatedSpeechNew = r'.generatedSpeechNew) :
    renderRow r = renderRow r' := by
  cases r
  cases r'
  simp_all

/-- Claim C8 witness: the example row rendered twice. -/
theorem render_deterministic_witness :
    renderRow sampleRowFull = renderRow sampleRowFull :=
  render_deterministic sampleRowFull sampleRowFull rfl rfl rfl rfl rfl rfl

/-- Claim C9: the toggle is total and surfaces no error to its caller: for
every state it returns an ordinary result (the pure toggle's result), whether
or not the underlying resource can load or play. -/
theorem toggle_total (s : AudioPlayerState) :
    handlePlayPauseE s = Except.ok (handlePlayPause s) := by
  cases hs : s.isPlaying <;>
    simp [handlePlayPauseE, handlePlayPause, audioPauseE, audioPlayE, hs, Bind.bind, Except.bind]

/-- Claim C10: every rendered row has exactly one audio control bound to
`originalSpeech` and exactly one bound to `generatedSpeechNew`, whatever the
reference strings are (empty included); only the `generatedSpeech` cell is
conditional on its reference being truthy. -/
theorem unconditional_controls (r : TTSData) :
    audioControls (renderRow r).originalSpeechCell = [(r.originalSpeech, "Original")] ∧
    audioControls (renderRow r).generatedSpeechNewCell = [(r.generatedSpeechNew, "New Generated")] ∧
    audioControls (renderRow r).generatedSpeechCell =
      (if r.generatedSpeech = "" then [] else [(r.generatedSpeech, "Generated")]) := by
  refine ⟨rfl, rfl, ?_⟩
  by_cases h : r.generatedSpeech = "" <;> simp [renderRow, jsTruthy, audioControls, h]

end VCD
